import Mathlib

/-!
Shallow embedding of the accent-conversion prototype: the class
`AccentStreamProcessor` (methods `detect_accent`, `apply_dsp_effects`,
`process_chunk`), the module-level `process_audio` stub from
`accent_equalizer.py`, and the REST handler `process_chunk_rest` from
`app.py`.

Modelling conventions:
* raw audio bytes are `List Nat`;
* `time.time()` values are rationals (seconds);
* the two uses of the `random` module are modelled by oracle arguments:
  `random.choice(l)` draws `l[r % len(l)]` and `random.randint(a, b)` draws
  `a + r % (b - a + 1)`, so exactly the support of each distribution is
  reachable as the oracle `r` ranges over `Nat`;
* Python mutation of `self` becomes explicit state passing: each method
  returns its value paired with the updated processor state;
* a `try/except` block is modelled by a `_catch` function taking the
  outcome of the protected body as an `Except` value.
-/

/-- Raw audio bytes, as a list of byte values. -/
abbrev Bytes := List Nat

/-- Model of `random.choice(l)` for a nonempty list: the oracle value `r`
selects the element `l[r % len(l)]`; every element is reachable and only
elements of `l` are returned. -/
def randomChoice (l : List String) (r : Nat) : String :=
  l.getD (r % l.length) ""

/-- Model of `random.randint(a, b)` (both bounds inclusive, `a ≤ b`): the
oracle value `r` selects the point `a + r % (b - a + 1)` of the support. -/
def randint (a b : Nat) (r : Nat) : Nat :=
  a + r % (b - a + 1)

/-- The fixed accent pool assigned to `self.detected_accents` in
`AccentStreamProcessor.__init__`. -/
def detected_accents : List String :=
  ["American (South)", "British (Received Pronunciation)", "Indian (General)",
   "Indian (South)", "Indian (North)", "Chinese (Mandarin)", "Japanese",
   "French", "German", "Spanish", "Russian", "Australian"]

/-- Mutable per-object state of `AccentStreamProcessor`: the fields
`self.current_detected` and `self.last_detection_time` (seconds, as set from
`time.time()`). -/
structure AccentStreamProcessor where
  current_detected : String
  last_detection_time : ℚ
deriving DecidableEq

/-- State produced by `AccentStreamProcessor.__init__`:
`current_detected = "Analyzing..."` and `last_detection_time = 0`. -/
def AccentStreamProcessor.init : AccentStreamProcessor :=
  { current_detected := "Analyzing...", last_detection_time := 0 }

/-- Embedding of `AccentStreamProcessor.detect_accent`.  `current_time` is
the value of `time.time()` at the call and `r` is the oracle for
`random.choice`.  When more than 2.0 seconds have passed since
`last_detection_time`, a fresh accent is drawn and both fields are updated;
otherwise the stored estimate is returned and the state is unchanged.
Returns the reported accent paired with the updated state. -/
def detect_accent (s : AccentStreamProcessor) (current_time : ℚ) (r : Nat) :
    String × AccentStreamProcessor :=
  if current_time - s.last_detection_time > 2 then
    let picked := randomChoice detected_accents r
    (picked, { current_detected := picked, last_detection_time := current_time })
  else
    (s.current_detected, s)

/-- Embedding of `AccentStreamProcessor.apply_dsp_effects`: the body of the
`try` block returns `audio_bytes` unchanged (the source's SIMULATION MODE
echo), so the function is a raw pass-through. -/
def apply_dsp_effects (audio_bytes : Bytes) (target_accent : String) : Bytes :=
  audio_bytes

/-- Control-flow model of the `try/except` wrapper in `apply_dsp_effects`:
`body` is the outcome of the protected block (in the source that block
evaluates to `audio_bytes`); on an exception the handler logs and returns
the original `audio_bytes`. -/
def apply_dsp_effects_catch (audio_bytes : Bytes) (body : Except String Bytes) :
    Bytes :=
  match body with
  | Except.ok b => b
  | Except.error _ => audio_bytes

/-- Result dictionary built by `AccentStreamProcessor.process_chunk`. -/
structure ProcessedChunk where
  audio : Bytes
  detected_accent : String
  target_accent : String
  status : String
  latency_ms : Nat
deriving DecidableEq

/-- Embedding of `AccentStreamProcessor.process_chunk`: runs
`detect_accent`, then `apply_dsp_effects`, and assembles the result
dictionary with `status = "processed"` and a simulated latency drawn by
`random.randint(150, 450)` (oracle `rLat`).  Returns the result paired with
the updated processor state. -/
def process_chunk (s : AccentStreamProcessor) (audio_chunk : Bytes)
    (target_accent : String) (current_time : ℚ) (rDetect rLat : Nat) :
    ProcessedChunk × AccentStreamProcessor :=
  let d := detect_accent s current_time rDetect
  let processed_audio := apply_dsp_effects audio_chunk target_accent
  ({ audio := processed_audio,
     detected_accent := d.1,
     target_accent := target_accent,
     status := "processed",
     latency_ms := randint 150 450 rLat }, d.2)

/-- Embedding of the module-level `process_audio` in `accent_equalizer.py`:
its signature is annotated `-> str`, but its body is `pass`, so every call
returns Python `None`; modelled as `Option String` returning `none`. -/
def process_audio (input_file : String) (target_accent : String)
    (preserve_identity : Bool) : Option String :=
  none

/-- HTTP response produced by the REST handler `process_chunk_rest` in
`app.py`: the status code together with the JSON body fields that the
handler can emit.  The base64 transport encoding of the audio bytes is an
injective re-coding and is modelled as the identity on byte lists. -/
structure RestResponse where
  status_code : Nat
  error : Option String
  audio_b64 : Option Bytes
  detected_accent : Option String
  target_accent : Option String
  status : Option String
deriving DecidableEq

/-- Embedding of the Flask handler `process_chunk_rest` in `app.py`.
`audio_file` is `request.files.get('audio')` and `target_accent_form`
is `request.form.get('target_accent')`, which defaults to `"Neutral"`.
With no audio file the handler returns 400 with body
`{'error': 'No audio provided'}` without touching the processor; otherwise
it calls `processor.process_chunk` on the single module-level processor and
returns 200 with the result fields.  The shared processor state is threaded
explicitly: the handler returns the response paired with the new state. -/
def process_chunk_rest (s : AccentStreamProcessor) (audio_file : Option Bytes)
    (target_accent_form : Option String) (current_time : ℚ)
    (rDetect rLat : Nat) : RestResponse × AccentStreamProcessor :=
  let target_accent := target_accent_form.getD "Neutral"
  match audio_file with
  | none =>
      ({ status_code := 400, error := some "No audio provided",
         audio_b64 := none, detected_accent := none, target_accent := none,
         status := none }, s)
  | some audio_bytes =>
      let pr := process_chunk s audio_bytes target_accent current_time rDetect rLat
      ({ status_code := 200, error := none,
         audio_b64 := some pr.1.audio,
         detected_accent := some pr.1.detected_accent,
         target_accent := some pr.1.target_accent,
         status := some "processed" }, pr.2)

/-- Control-flow model of the outer `try/except` in `process_chunk_rest`:
`body` is the outcome of the protected block; on an exception `e` the
handler returns `jsonify({'error': str(e)}), 500`. -/
def process_chunk_rest_catch (body : Except String RestResponse) : RestResponse :=
  match body with
  | Except.ok r => r
  | Except.error e =>
      { status_code := 500, error := some e, audio_b64 := none,
        detected_accent := none, target_accent := none, status := none }

/-- Invariant on the stored accent estimate: it is either the sentinel
`"Analyzing..."` or a member of the fixed accent pool. -/
def EstimateOk (a : String) : Prop :=
  a = "Analyzing..." ∨ a ∈ detected_accents

/-- Helper: a `random.choice` draw from a nonempty list is a member of the
list. -/
theorem randomChoice_mem (l : List String) (r : Nat) (h : l ≠ []) :
    randomChoice l r ∈ l := by
  unfold randomChoice
  have hlen : 0 < l.length := List.length_pos.mpr h
  have hi : r % l.length < l.length := Nat.mod_lt _ hlen
  rw [List.getD_eq_getElem l "" hi]
  exact List.getElem_mem hi

/-- Helper: at one second after the initial state's detection time, less
than two seconds have passed. -/
theorem gap_one_lt_two :
    (1 : ℚ) - AccentStreamProcessor.init.last_detection_time < 2 := by
  norm_num [AccentStreamProcessor.init]

/-- Helper: at ten seconds after the initial state's detection time, more
than two seconds have passed. -/
theorem gap_ten_gt_two :
    (10 : ℚ) - AccentStreamProcessor.init.last_detection_time > 2 := by
  norm_num [AccentStreamProcessor.init]

/-- C1: for every audio chunk and every target accent, the conversion step is
a raw pass-through: `apply_dsp_effects` returns the input bytes unchanged,
and the `audio` field of `process_chunk`'s result equals the input bytes. -/
theorem c1_conversion_is_passthrough (s : AccentStreamProcessor)
    (audio : Bytes) (target : String) (t : ℚ) (r1 r2 : Nat) :
    apply_dsp_effects audio target = audio ∧
    (process_chunk s audio target t r1 r2).1.audio = audio :=
  ⟨rfl, rfl⟩

/-- C2 counterexample: with the unknown target accent "Klingon", a chunk
processed from the initial state gets status `"processed"`, not
`"fallback"`; the code never emits a `"fallback"` status. -/
theorem c2_counterexample :
    (process_chunk AccentStreamProcessor.init [1, 2, 3] "Klingon" 10 0 0).1.status
      ≠ "fallback" := by
  intro h
  exact absurd h (by decide)

/-- C2 amended: for every target accent, known or unknown, every processed
chunk returns status `"processed"` (never `"fallback"`) and its output audio
is bit-identical to the input audio; the target accent is never inspected. -/
theorem c2_amended_status_processed (s : AccentStreamProcessor)
    (audio : Bytes) (target : String) (t : ℚ) (r1 r2 : Nat) :
    (process_chunk s audio target t r1 r2).1.status = "processed" ∧
    (process_chunk s audio target t r1 r2).1.audio = audio :=
  ⟨rfl, rfl⟩

/-- C3: a call to `detect_accent` made less than 2 seconds after the last
detection returns the previously stored estimate and leaves the state
unchanged, so the reported label changes at most once per 2-second
interval. -/
theorem c3_detection_interval (s : AccentStreamProcessor) (t : ℚ) (r : Nat)
    (h : t - s.last_detection_time < 2) :
    detect_accent s t r = (s.current_detected, s) := by
  unfold detect_accent
  rw [if_neg (not_lt.mpr h.le)]

/-- C3 witness: one second after the initial state's detection time, the
stored estimate is returned unchanged. -/
theorem c3_witness :
    (1 : ℚ) - AccentStreamProcessor.init.last_detection_time < 2 ∧
    detect_accent AccentStreamProcessor.init 1 7
      = (AccentStreamProcessor.init.current_detected, AccentStreamProcessor.init) :=
  ⟨gap_one_lt_two, c3_detection_interval AccentStreamProcessor.init 1 7 gap_one_lt_two⟩

/-- C4: for every chunk, `process_chunk` returns a `ProcessedChunk` record
whose audio is the DSP output, whose detected and target accent labels come
from detection and the request, whose latency is the simulated
`randint(150, 450)` draw in milliseconds, and whose status is one of
`"processed"`, `"fallback"`, `"error"`. -/
theorem c4_processed_chunk_fields (s : AccentStreamProcessor)
    (audio : Bytes) (target : String) (t : ℚ) (r1 r2 : Nat) :
    (process_chunk s audio target t r1 r2).1.audio = apply_dsp_effects audio target ∧
    (process_chunk s audio target t r1 r2).1.detected_accent = (detect_accent s t r1).1 ∧
    (process_chunk s audio target t r1 r2).1.target_accent = target ∧
    (process_chunk s audio target t r1 r2).1.latency_ms = randint 150 450 r2 ∧
    ((process_chunk s audio target t r1 r2).1.status = "processed" ∨
     (process_chunk s audio target t r1 r2).1.status = "fallback" ∨
     (process_chunk s audio target t r1 r2).1.status = "error") :=
  ⟨rfl, rfl, rfl, rfl, Or.inl rfl⟩

/-- C5: the initial estimate is the sentinel `"Analyzing..."`; whenever the
stored estimate is the sentinel or a pool member, the value returned by
`detect_accent` and the updated stored estimate again are; and when a
detection actually fires (more than 2 seconds elapsed), the returned value
is a real pool member, not the sentinel. -/
theorem c5_estimate_sentinel_or_pool (s : AccentStreamProcessor) (t : ℚ)
    (r : Nat) (h : EstimateOk s.current_detected) :
    AccentStreamProcessor.init.current_detected = "Analyzing..." ∧
    EstimateOk (detect_accent s t r).1 ∧
    EstimateOk (detect_accent s t r).2.current_detected ∧
    (t - s.last_detection_time > 2 → (detect_accent s t r).1 ∈ detected_accents) := by
  have hmem : randomChoice detected_accents r ∈ detected_accents :=
    randomChoice_mem detected_accents r (by decide)
  by_cases hc : t - s.last_detection_time > 2
  · unfold detect_accent
    rw [if_pos hc]
    exact ⟨rfl, Or.inr hmem, Or.inr hmem, fun _ => hmem⟩
  · unfold detect_accent
    rw [if_neg hc]
    exact ⟨rfl, h, h, fun hfire => absurd hfire hc⟩

/-- C5 witness: instantiation at the initial state, time 10, oracle 3. -/
theorem c5_witness :
    EstimateOk AccentStreamProcessor.init.current_detected ∧
    (AccentStreamProcessor.init.current_detected = "Analyzing..." ∧
     EstimateOk (detect_accent AccentStreamProcessor.init 10 3).1 ∧
     EstimateOk (detect_accent AccentStreamProcessor.init 10 3).2.current_detected ∧
     ((10 : ℚ) - AccentStreamProcessor.init.last_detection_time > 2 →
       (detect_accent AccentStreamProcessor.init 10 3).1 ∈ detected_accents)) :=
  ⟨Or.inl rfl,
    c5_estimate_sentinel_or_pool AccentStreamProcessor.init 10 3 (Or.inl rfl)⟩

/-- C6: for a non-empty input chunk, provided a detection fires on this call
(more than 2 seconds elapsed) or the stored estimate is already a real pool
member, `process_chunk` returns a pool-member (non-sentinel) detected
accent, status `"processed"`, and a latency strictly below 500 ms. -/
theorem c6_end_to_end_processed (s : AccentStreamProcessor) (audio : Bytes)
    (target : String) (t : ℚ) (r1 r2 : Nat) (hne : audio ≠ [])
    (hdet : t - s.last_detection_time > 2 ∨ s.current_detected ∈ detected_accents) :
    (process_chunk s audio target t r1 r2).1.detected_accent ∈ detected_accents ∧
    (process_chunk s audio target t r1 r2).1.status = "processed" ∧
    (process_chunk s audio target t r1 r2).1.latency_ms < 500 := by
  have hlat : randint 150 450 r2 < 500 := by
    unfold randint
    omega
  refine ⟨?_, rfl, hlat⟩
  show (detect_accent s t r1).1 ∈ detected_accents
  by_cases hc : t - s.last_detection_time > 2
  · unfold detect_accent
    rw [if_pos hc]
    exact randomChoice_mem detected_accents r1 (by decide)
  · unfold detect_accent
    rw [if_neg hc]
    rcases hdet with hfire | hmem
    · exact absurd hfire hc
    · exact hmem

/-- C6 witness: a one-byte chunk, target "British (Received Pronunciation)",
processed from the initial state at time 10 with oracles 0 and 0. -/
theorem c6_witness :
    ([1] : Bytes) ≠ [] ∧
    ((10 : ℚ) - AccentStreamProcessor.init.last_detection_time > 2 ∨
      AccentStreamProcessor.init.current_detected ∈ detected_accents) ∧
    ((process_chunk AccentStreamProcessor.init [1]
        "British (Received Pronunciation)" 10 0 0).1.detected_accent ∈ detected_accents ∧
     (process_chunk AccentStreamProcessor.init [1]
        "British (Received Pronunciation)" 10 0 0).1.status = "processed" ∧
     (process_chunk AccentStreamProcessor.init [1]
        "British (Received Pronunciation)" 10 0 0).1.latency_ms < 500) :=
  ⟨by decide, Or.inl gap_ten_gt_two,
    c6_end_to_end_processed AccentStreamProcessor.init [1]
      "British (Received Pronunciation)" 10 0 0 (by decide)
      (Or.inl gap_ten_gt_two)⟩

/-- C7: per-chunk errors are contained: an exception in the protected body
of `apply_dsp_effects` is caught and the original audio returned, and an
exception in the protected body of the REST handler is caught and turned
into a per-request 500 response carrying the error message. -/
theorem c7_errors_contained (audio : Bytes) (e1 e2 : String) :
    apply_dsp_effects_catch audio (Except.error e1) = audio ∧
    (process_chunk_rest_catch (Except.error e2)).status_code = 500 ∧
    (process_chunk_rest_catch (Except.error e2)).error = some e2 :=
  ⟨rfl, rfl, rfl⟩

/-- C8 counterexample: two sessions share the single module-level processor.
Session A sends a REST chunk at time 10 (oracle 0); session B then calls
detection at time 11 with its own oracle 1 and observes a value different
from what it would have observed had session A not processed its chunk, so
processing a chunk in one session does change what the other observes. -/
theorem c8_counterexample :
    (detect_accent
        (process_chunk_rest AccentStreamProcessor.init (some [1]) none 10 0 0).2
        11 1).1
      ≠ (detect_accent AccentStreamProcessor.init 11 1).1 := by
  norm_num [process_chunk_rest, process_chunk, detect_accent, randomChoice,
    detected_accents, AccentStreamProcessor.init, apply_dsp_effects,
    List.getD_cons_zero, List.getD_cons_succ]
  decide

/-- C8 amended: accent-detection state is a process-wide singleton shared by
all sessions: after session A's REST chunk at time 10, session B's detection
at time 11 returns the label stored by A ("American (South)"), whereas from
an untouched processor the same call by B would return its own fresh draw
("British (Received Pronunciation)"). -/
theorem c8_amended_shared_singleton :
    (detect_accent
        (process_chunk_rest AccentStreamProcessor.init (some [1]) none 10 0 0).2
        11 1).1 = "American (South)" ∧
    (detect_accent AccentStreamProcessor.init 11 1).1
      = "British (Received Pronunciation)" := by
  constructor <;>
    norm_num [process_chunk_rest, process_chunk, detect_accent, randomChoice,
      detected_accents, AccentStreamProcessor.init, apply_dsp_effects,
      List.getD_cons_zero, List.getD_cons_succ]

/-- C9: `process_audio` never returns a path: its body is `pass`, so every
call returns `none` (Python `None`), contradicting its `-> str` annotation
and the spec's file-based mode contract. -/
theorem c9_process_audio_returns_none (input_file target : String) (p : Bool) :
    process_audio input_file target p = none :=
  rfl

/-- C10: a REST call with no audio file returns HTTP 400 with body
`{'error': 'No audio provided'}` and leaves the processor state (current
detected accent and last detection time) unchanged. -/
theorem c10_missing_audio_rejected (s : AccentStreamProcessor)
    (ta : Option String) (t : ℚ) (r1 r2 : Nat) :
    (process_chunk_rest s none ta t r1 r2).1.status_code = 400 ∧
    (process_chunk_rest s none ta t r1 r2).1.error = some "No audio provided" ∧
    (process_chunk_rest s none ta t r1 r2).2 = s :=
  ⟨rfl, rfl, rfl⟩
